import Mathlib

/-!
Verification of the calibration engine and TDEE calculator of the
honest-plate repository (src/app.py), shallowly embedded in Lean 4.

Modelling conventions:
* Spreadsheet cell values that the code coerces with `str(...)` /
  `astype(str)` are modelled by `CellVal` (a string or an integer), with
  `pyStr` as the coercion.
* Dates are modelled as day numbers (`ℤ`); `pd.to_datetime` failure on a
  malformed date cell is modelled by the field being `none`.  Likewise a
  non-numeric `Weight_kg` or `Final_Cals` cell is `none`; feeding such a
  column to `np.polyfit` / `.mean()` raises, which the engine's `try`
  block catches.  `parseAll` propagates such failures as `Except.error`.
* Python floats are modelled by exact rationals; `np.polyfit(x, y, 1)`
  is embedded as `polyfitSlope`: polyfit scales each Vandermonde column
  by its norm, so when every day index is 0 (all weigh-ins on a single
  date — day indices are min-subtracted, so all-equal means all-zero)
  the x column has norm 0, the scaled column is NaN, and lstsq raises
  LinAlgError; this failure is modelled as `Except.error`, caught by
  the engine's `try`.  On the remaining inputs reached by the engine
  the design matrix has full rank and the unique least-squares solution
  is the normal-equations slope `olsSlope`.
* `round(x, 2)` and the `.3f` format are modelled with round-half-up on
  exact rationals (ties cannot arise in the claims checked here).
* The session-state TDEE lookup `st.session_state.get('profile', {}).get('TDEE', 2000)`
  is total, so it is hoisted into the wrapper `run_calibration_engine`;
  this preserves the observable behaviour of src/app.py lines 109-111.
-/

/-- A spreadsheet cell holding a user identifier: the store may return it
as a string or as a number (src/app.py coerces with `astype(str)`). -/
inductive CellVal : Type where
  | str (s : String)
  | int (n : ℤ)
deriving DecidableEq

/-- Python `str(...)` on a cell value. -/
def pyStr : CellVal → String
  | CellVal.str s => s
  | CellVal.int n => toString n

/-- Python `int(...)` on a float: truncation toward zero. -/
def pyInt (q : ℚ) : ℤ :=
  if 0 ≤ q then ⌊q⌋ else -⌊-q⌋

/-- A row of the `Weight_Logs` worksheet (columns Date, User_ID,
Weight_kg).  `none` marks a cell the numeric code would choke on. -/
structure WeightRow : Type where
  date : Option ℤ
  userId : CellVal
  weight : Option ℚ
deriving DecidableEq

/-- A row of the `Food_Logs` worksheet (only the columns the engine and
the save path touch: User_ID, Raw_Cals, Final_Cals). -/
structure FoodRow : Type where
  userId : CellVal
  rawCals : ℤ
  finalCals : Option ℚ
deriving DecidableEq

/-- The cached session profile: the `TDEE` key may be absent. -/
structure SessionProfile : Type where
  TDEE : Option ℚ
deriving DecidableEq

/-- src/app.py line 109: `st.session_state.get('profile', {}).get('TDEE', 2000)`. -/
def getTdee (sess : Option SessionProfile) : ℚ :=
  match sess with
  | none => 2000
  | some p => p.TDEE.getD 2000

/-- Parse a whole column; a single malformed cell makes the pandas/numpy
operation raise, modelled as `Except.error`. -/
def parseAll {α : Type} : List (Option α) → Except Unit (List α)
  | [] => Except.ok []
  | none :: _ => Except.error ()
  | some a :: rest =>
    match parseAll rest with
    | Except.ok ys => Except.ok (a :: ys)
    | Except.error e => Except.error e

/-- Least element of a list of integers (pandas `.min()`); 0 on empty
(the engine only calls it on ≥ 5 rows). -/
def listMin : List ℤ → ℤ
  | [] => 0
  | x :: xs => xs.foldl min x

/-- src/app.py line 102: day index of each sample relative to the
earliest date of the filtered set. -/
def dayIndices (dates : List ℤ) : List ℚ :=
  dates.map (fun d => ((d - listMin dates : ℤ) : ℚ))

/-- Exact ordinary-least-squares slope by the normal equations: on the
inputs where degree-1 `np.polyfit` succeeds with a full-rank design
matrix, this is its unique least-squares solution. -/
def olsSlope (pts : List (ℚ × ℚ)) : ℚ :=
  let n : ℚ := pts.length
  let sx := (pts.map Prod.fst).sum
  let sy := (pts.map Prod.snd).sum
  let sxx := (pts.map (fun p => p.1 * p.1)).sum
  let sxy := (pts.map (fun p => p.1 * p.2)).sum
  (n * sxy - sx * sy) / (n * sxx - sx * sx)

/-- src/app.py line 106: `np.polyfit(x, y, 1)`.  polyfit divides each
Vandermonde column by its norm; a zero-norm x column (every day index
0, i.e. all weigh-ins on one date) becomes NaN and lstsq raises
LinAlgError, which the engine's bare `except` catches — modelled as
`Except.error`.  The zero-norm test is `Σ x² = 0`. -/
def polyfitSlope (pts : List (ℚ × ℚ)) : Except Unit ℚ :=
  if (pts.map (fun p => p.1 * p.1)).sum = 0 then Except.error ()
  else Except.ok (olsSlope pts)

/-- pandas `Series.mean()`: `none` (NaN) on an empty column; the engine
compares the result with `> 0`, and `NaN > 0` is false in Python, which
the `none` branch of the caller reproduces. -/
def pandasMean (xs : List ℚ) : Option ℚ :=
  if xs = [] then none else some (xs.sum / (xs.length : ℚ))

/-- Python `max(0.8, min(f, 1.5))` — src/app.py line 118. -/
def pyClamp (q : ℚ) : ℚ :=
  max (0.8 : ℚ) (min q (1.5 : ℚ))

/-- Python `round(f, 2)` — src/app.py line 120. -/
def roundTo2 (q : ℚ) : ℚ :=
  ((round (q * 100) : ℤ) : ℚ) / 100

/-- Three-digit zero padding for the fractional part of `%.3f`. -/
def pad3 (n : ℕ) : String :=
  if n < 10 then "00" ++ toString n
  else if n < 100 then "0" ++ toString n
  else toString n

/-- Python format `f"{q:.3f}"` on an exact rational. -/
def fmt3 (q : ℚ) : String :=
  let m : ℤ := round (q * 1000)
  let sign := if m < 0 then "-" else ""
  sign ++ toString (m.natAbs / 1000) ++ "." ++ pad3 (m.natAbs % 1000)

/-- src/app.py lines 100-120: the regression (which can fail, see
`polyfitSlope`), mean, expected intake, guarded division, clamp, round
and diagnostic message, applied to the already-parsed filtered columns. -/
def mainFormula (tdee : ℚ) (dates : List ℤ) (weights cals : List ℚ) :
    Except Unit (ℚ × String) :=
  match polyfitSlope ((dayIndices dates).zip weights) with
  | Except.error e => Except.error e
  | Except.ok slope =>
    let expected_intake := tdee + slope * 7700
    let inflation_factor :=
      match pandasMean cals with
      | some avg => if 0 < avg then expected_intake / avg else 1
      | none => 1
    Except.ok (roundTo2 (pyClamp inflation_factor),
      "Slope: " ++ fmt3 slope ++ " kg/day")

/-- src/app.py lines 97-120 on the user-filtered rows: the 5-sample
check, then column parsing (a malformed cell raises, i.e. errors). -/
def regressionPart (tdee : ℚ) (w : List WeightRow) (f : List FoodRow) :
    Except Unit (ℚ × String) :=
  if w.length < 5 then Except.ok (1, "Need 5+ weigh-ins")
  else
    match parseAll (w.map (fun r => r.date)),
          parseAll (w.map (fun r => r.weight)),
          parseAll (f.map (fun r => r.finalCals)) with
    | Except.ok dates, Except.ok weights, Except.ok cals =>
        mainFormula tdee dates weights cals
    | _, _, _ => Except.error ()

/-- src/app.py lines 86-120: the raw-data emptiness check (note: on the
UNfiltered collections), then the per-user filter, then the regression. -/
def innerEngine (uid : CellVal) (wd : List WeightRow) (fd : List FoodRow)
    (tdee : ℚ) : Except Unit (ℚ × String) :=
  if wd = [] ∨ fd = [] then Except.ok (1, "Not enough data")
  else
    regressionPart tdee
      (wd.filter (fun r => pyStr r.userId == pyStr uid))
      (fd.filter (fun r => pyStr r.userId == pyStr uid))

/-- src/app.py lines 77-124: `run_calibration_engine`, with the
`try/except` collapsing any internal failure to `(1.0, "Insufficient Data")`. -/
def run_calibration_engine (uid : CellVal) (wd : List WeightRow)
    (fd : List FoodRow) (sess : Option SessionProfile) : ℚ × String :=
  match innerEngine uid wd fd (getTdee sess) with
  | Except.ok v => v
  | Except.error _ => (1, "Insufficient Data")

/-- The factor component of the engine as a function of the filtered
rows only (helper for the invariance and bounds proofs). -/
def factorOf (tdee : ℚ) (w : List WeightRow) (f : List FoodRow) : ℚ :=
  if w.length < 5 then 1
  else
    match parseAll (w.map (fun r => r.date)),
          parseAll (w.map (fun r => r.weight)),
          parseAll (f.map (fun r => r.finalCals)) with
    | Except.ok dates, Except.ok weights, Except.ok cals =>
        match mainFormula tdee dates weights cals with
        | Except.ok v => v.1
        | Except.error _ => 1
    | _, _, _ => 1

/-- Mean of the user's stored `Final_Cals` column, `none` when the
column is empty or does not parse (helper for stating the division guard). -/
def foodMean (uid : CellVal) (fd : List FoodRow) : Option ℚ :=
  match parseAll ((fd.filter (fun r => pyStr r.userId == pyStr uid)).map
      (fun r => r.finalCals)) with
  | Except.ok cals => pandasMean cals
  | Except.error _ => none

/-- Spec §4.2 steps 1-8, stated from the specification text: day index
from the earliest date, OLS slope, arithmetic mean of adjusted
calories, expected intake, division, clamp, round, slope diagnostic. -/
def specCalibrationResult (current_tdee : ℚ) (dates : List ℤ)
    (weights cals : List ℚ) : ℚ × String :=
  let x := dates.map (fun d => ((d - listMin dates : ℤ) : ℚ))
  let slope := olsSlope (x.zip weights)
  let avg_reported_cals := cals.sum / (cals.length : ℚ)
  let expected_intake := current_tdee + slope * 7700
  let inflation_factor := expected_intake / avg_reported_cals
  (roundTo2 (pyClamp inflation_factor), "Slope: " ++ fmt3 slope ++ " kg/day")

/-- src/app.py lines 48-54: the activity-multiplier dict with
`.get(activity, 1.2)` default. -/
def multipliers (activity : String) : ℚ :=
  if activity = "Sedentary" then 1.2
  else if activity = "Lightly Active" then 1.375
  else if activity = "Moderately Active" then 1.55
  else if activity = "Very Active" then 1.725
  else 1.2

/-- src/app.py lines 41-54: Mifflin-St Jeor BMR then activity multiplier,
truncated to an integer. -/
def calculate_tdee (age : ℚ) (gender : String) (height weight : ℚ)
    (activity : String) : ℤ :=
  let bmr :=
    if gender = "Male" then (10 * weight) + (6.25 * height) - (5 * age) + 5
    else (10 * weight) + (6.25 * height) - (5 * age) - 161
  pyInt (bmr * multipliers activity)

/-- Spec §4.1: the activity table, unknown/missing level defaults 1.2. -/
def specActivityMultiplier (activity : String) : ℚ :=
  if activity = "Sedentary" then 1.2
  else if activity = "Lightly Active" then 1.375
  else if activity = "Moderately Active" then 1.55
  else if activity = "Very Active" then 1.725
  else 1.2

/-- Spec §4.1: the Mifflin-St Jeor basal metabolic rate. -/
def specBmr (age : ℚ) (gender : String) (height weight : ℚ) : ℚ :=
  if gender = "Male" then 10 * weight + 6.25 * height - 5 * age + 5
  else 10 * weight + 6.25 * height - 5 * age - 161

/-- src/app.py line 238: `final_cals = int(data['cals'] * INFLATION_FACTOR)`,
and line 243-245: the appended `Food_Logs` row. -/
def save_meal_row (uid : CellVal) (cals : ℤ) (inflation_factor : ℚ) : FoodRow :=
  { userId := uid, rawCals := cals,
    finalCals := some ((pyInt ((cals : ℚ) * inflation_factor) : ℤ) : ℚ) }

/-- The session state the save path reads: the food log plus the
inflation factor loaded from the profile (src/app.py line 174). -/
structure AppState : Type where
  foodLog : List FoodRow
  inflation_factor : ℚ

/-- Saving a meal appends one row computed with the factor in effect at
that moment (src/app.py lines 236-245). -/
def save_meal (s : AppState) (uid : CellVal) (cals : ℤ) : AppState :=
  { s with foodLog := s.foodLog ++ [save_meal_row uid cals s.inflation_factor] }

/-- Recalibration updates only the stored factor; the engine itself
performs no writes to the logs (src/app.py lines 77-124, 256-258). -/
def apply_recalibration (s : AppState) (newFactor : ℚ) : AppState :=
  { s with inflation_factor := newFactor }

theorem parseAll_ok_length {α : Type} (xs : List (Option α)) (ys : List α)
    (h : parseAll xs = Except.ok ys) : ys.length = xs.length := by
  induction xs generalizing ys with
  | nil =>
    simp only [parseAll, Except.ok.injEq] at h
    subst h; rfl
  | cons x rest ih =>
    cases x with
    | none => simp [parseAll] at h
    | some a =>
      simp only [parseAll] at h
      cases hr : parseAll rest with
      | ok zs =>
        rw [hr] at h
        simp only [Except.ok.injEq] at h
        subst h
        simp [ih zs hr]
      | error e => rw [hr] at h; simp at h

theorem roundTo2_pyClamp_ge (q : ℚ) : (0.8 : ℚ) ≤ roundTo2 (pyClamp q) := by
  have h1 : (0.8 : ℚ) ≤ pyClamp q := le_max_left _ _
  have h2 : (80 : ℤ) ≤ round (pyClamp q * 100) := by
    rw [round_eq]
    refine Int.le_floor.mpr ?_
    push_cast
    linarith
  unfold roundTo2
  rw [le_div_iff₀ (by norm_num : (0 : ℚ) < 100)]
  have h3 : ((80 : ℤ) : ℚ) ≤ ((round (pyClamp q * 100) : ℤ) : ℚ) := by
    exact_mod_cast h2
  push_cast at h3 ⊢
  linarith

theorem roundTo2_pyClamp_le (q : ℚ) : roundTo2 (pyClamp q) ≤ (1.5 : ℚ) := by
  have h1 : pyClamp q ≤ (1.5 : ℚ) := max_le (by norm_num) (min_le_right _ _)
  have h2 : round (pyClamp q * 100) ≤ (150 : ℤ) := by
    rw [round_eq]
    have h4 : pyClamp q * 100 + 1 / 2 < ((151 : ℤ) : ℚ) := by push_cast; linarith
    have h5 := Int.floor_lt.mpr h4
    omega
  unfold roundTo2
  rw [div_le_iff₀ (by norm_num : (0 : ℚ) < 100)]
  have h3 : ((round (pyClamp q * 100) : ℤ) : ℚ) ≤ ((150 : ℤ) : ℚ) := by
    exact_mod_cast h2
  push_cast at h3 ⊢
  linarith

theorem factorOf_food_nil (tdee : ℚ) (w : List WeightRow) :
    factorOf tdee w [] = 1 := by
  have hone : roundTo2 (pyClamp 1) = 1 := by
    unfold roundTo2 pyClamp
    norm_num [round_eq]
  unfold factorOf
  split
  · rfl
  · rcases h1 : parseAll (w.map (fun r => r.date)) with e1 | dates
    · simp [h1]
    rcases h2 : parseAll (w.map (fun r => r.weight)) with e2 | weights
    · simp [h1, h2]
    rcases h3 : polyfitSlope ((dayIndices dates).zip weights) with e3 | slope <;>
      simp [h1, h2, parseAll, mainFormula, h3, pandasMean, hone]

theorem engine_fst_eq (uid : CellVal) (wd : List WeightRow) (fd : List FoodRow)
    (sess : Option SessionProfile) :
    (run_calibration_engine uid wd fd sess).1 =
      factorOf (getTdee sess)
        (wd.filter (fun r => pyStr r.userId == pyStr uid))
        (fd.filter (fun r => pyStr r.userId == pyStr uid)) := by
  unfold run_calibration_engine innerEngine
  by_cases hempty : wd = [] ∨ fd = []
  · rw [if_pos hempty]
    rcases hempty with hw | hf
    · subst hw
      simp [factorOf]
    · subst hf
      simp [factorOf_food_nil]
  · rw [if_neg hempty]
    unfold regressionPart factorOf
    set w := wd.filter (fun r => pyStr r.userId == pyStr uid) with hwdef
    set f := fd.filter (fun r => pyStr r.userId == pyStr uid) with hfdef
    by_cases hlen : w.length < 5
    · rw [if_pos hlen, if_pos hlen]
    · rw [if_neg hlen, if_neg hlen]
      cases h1 : parseAll (w.map (fun r => r.date)) <;>
        cases h2 : parseAll (w.map (fun r => r.weight)) <;>
        cases h3 : parseAll (f.map (fun r => r.finalCals)) <;>
        simp [h1, h2, h3] <;>
        cases hm : mainFormula (getTdee sess) _ _ _ <;>
        simp [hm]

theorem mainFormula_ok_fst (tdee : ℚ) (dates : List ℤ) (weights cals : List ℚ)
    (v : ℚ × String) (h : mainFormula tdee dates weights cals = Except.ok v) :
    (0.8 : ℚ) ≤ v.1 ∧ v.1 ≤ (1.5 : ℚ) := by
  unfold mainFormula at h
  rcases hps : polyfitSlope ((dayIndices dates).zip weights) with e | slope
  · rw [hps] at h
    exact absurd h (by simp)
  · rw [hps] at h
    simp only [Except.ok.injEq] at h
    subst h
    exact ⟨roundTo2_pyClamp_ge _, roundTo2_pyClamp_le _⟩

theorem factorOf_mem (tdee : ℚ) (w : List WeightRow) (f : List FoodRow) :
    (0.8 : ℚ) ≤ factorOf tdee w f ∧ factorOf tdee w f ≤ (1.5 : ℚ) := by
  unfold factorOf
  split
  · norm_num
  · rcases h1 : parseAll (w.map (fun r => r.date)) with e1 | dates
    · simp [h1]; norm_num
    rcases h2 : parseAll (w.map (fun r => r.weight)) with e2 | weights
    · simp [h1, h2]; norm_num
    rcases h3 : parseAll (f.map (fun r => r.finalCals)) with e3 | cals
    · simp [h1, h2, h3]; norm_num
    rcases hm : mainFormula tdee dates weights cals with e4 | v
    · simp [h1, h2, h3, hm]; norm_num
    · simp only [h1, h2, h3, hm]
      exact mainFormula_ok_fst tdee dates weights cals v hm

theorem roundTo2_pyClamp_one : roundTo2 (pyClamp 1) = 1 := by
  unfold roundTo2 pyClamp
  norm_num [round_eq]

/-- Claim C2: for every input — any user id, any weight/food data, any
session profile — the factor returned by the calibration engine lies in
the closed interval [0.8, 1.5]; every early-exit and failure path
returns the in-range neutral value 1.0, and the computed ratio is
clamped to the bounds. -/
theorem c2_factor_bounds (uid : CellVal) (wd : List WeightRow)
    (fd : List FoodRow) (sess : Option SessionProfile) :
    (0.8 : ℚ) ≤ (run_calibration_engine uid wd fd sess).1 ∧
      (run_calibration_engine uid wd fd sess).1 ≤ (1.5 : ℚ) := by
  rw [engine_fst_eq]
  exact factorOf_mem _ _ _

/-- Claim C6: saving a meal appends one Food Log row whose
adjusted_calories equal int(raw_calories × inflation factor in effect at
that moment), and a later recalibration (which only updates the stored
factor) leaves every previously written row unchanged. -/
theorem c6_adjusted_calories (s : AppState) (uid : CellVal) (cals : ℤ)
    (newF : ℚ) :
    (save_meal s uid cals).foodLog
        = s.foodLog ++ [save_meal_row uid cals s.inflation_factor] ∧
      (save_meal_row uid cals s.inflation_factor).finalCals
        = some ((pyInt ((cals : ℚ) * s.inflation_factor) : ℤ) : ℚ) ∧
      (apply_recalibration (save_meal s uid cals) newF).foodLog
        = (save_meal s uid cals).foodLog ∧
      ((save_meal s uid cals).foodLog).take s.foodLog.length = s.foodLog := by
  refine ⟨rfl, rfl, rfl, ?_⟩
  simp [save_meal, List.take_left]

/-- Claim C7: calculate_tdee returns int(bmr × multiplier) exactly, with
the Mifflin-St Jeor bmr for the given gender and the fixed activity
table (unknown or missing level defaulting to 1.2); in particular the
two documented sample values 1746 and 1546 hold. -/
theorem c7_tdee_formula :
    (∀ (age : ℚ) (gender : String) (height weight : ℚ) (activity : String),
        calculate_tdee age gender height weight activity
          = pyInt (specBmr age gender height weight
              * specActivityMultiplier activity)) ∧
      calculate_tdee 50 "Male" 160 70 "Sedentary" = 1746 ∧
      calculate_tdee 50 "Female" 160 70 "Sedentary" = 1546 := by
  refine ⟨fun age gender height weight activity => rfl, ?_, ?_⟩
  · unfold calculate_tdee multipliers
    rw [if_pos rfl]
    unfold pyInt
    norm_num
  · unfold calculate_tdee multipliers
    rw [if_neg (by decide : ¬("Female" : String) = "Male")]
    unfold pyInt
    norm_num

/-- Claim C9: every gender argument other than the exact string "Male" —
including "male", "", or arbitrary text — takes the Female branch of the
Mifflin-St Jeor formula (constant −161). -/
theorem c9_nonmale_female_branch (age : ℚ) (gender : String)
    (height weight : ℚ) (activity : String) (h : gender ≠ "Male") :
    calculate_tdee age gender height weight activity
      = pyInt (((10 * weight) + (6.25 * height) - (5 * age) - 161)
          * multipliers activity) := by
  unfold calculate_tdee
  rw [if_neg h]

/-- Witness for C9: the lowercase gender "male" is charged the Female
constant, giving 1546 rather than the Male value 1746. -/
theorem c9_nonmale_female_branch_witness :
    calculate_tdee 50 "male" 160 70 "Sedentary"
      = pyInt (((10 * (70 : ℚ)) + (6.25 * 160) - (5 * 50) - 161)
          * multipliers "Sedentary") :=
  c9_nonmale_female_branch 50 "male" 160 70 "Sedentary" (by decide)

/-- Claim C10: the calibration engine takes no TDEE parameter; it reads
the TDEE field of the cached session profile and silently substitutes
the default 2000 into the expected-intake computation when the profile
or its TDEE field is absent, instead of failing. -/
theorem c10_tdee_default :
    getTdee none = 2000 ∧ getTdee (some ⟨none⟩) = 2000 ∧
      (∀ (uid : CellVal) (wd : List WeightRow) (fd : List FoodRow),
        run_calibration_engine uid wd fd none
            = run_calibration_engine uid wd fd (some ⟨some 2000⟩) ∧
          run_calibration_engine uid wd fd (some ⟨none⟩)
            = run_calibration_engine uid wd fd (some ⟨some 2000⟩)) :=
  ⟨rfl, rfl, fun uid wd fd => ⟨rfl, rfl⟩⟩

/-- Claim C8: the engine divides expected_intake by avg_reported_cals
only when that mean is positive; whenever the mean of the user's
filtered adjusted_calories is zero or negative (or undefined), no
division occurs — the inflation factor is set to 1.0 before clamping
and rounding, so the returned factor is 1.0. -/
theorem c8_division_guard (uid : CellVal) (wd : List WeightRow)
    (fd : List FoodRow) (sess : Option SessionProfile)
    (h : ∀ m : ℚ, foodMean uid fd = some m → m ≤ 0) :
    (run_calibration_engine uid wd fd sess).1 = 1 := by
  rw [engine_fst_eq]
  unfold foodMean at h
  unfold factorOf
  split
  · rfl
  · rcases h1 : parseAll ((wd.filter (fun r => pyStr r.userId == pyStr uid)).map
        (fun r => r.date)) with e1 | dates
    · simp [h1]
    rcases h2 : parseAll ((wd.filter (fun r => pyStr r.userId == pyStr uid)).map
        (fun r => r.weight)) with e2 | weights
    · simp [h1, h2]
    rcases h3 : parseAll ((fd.filter (fun r => pyStr r.userId == pyStr uid)).map
        (fun r => r.finalCals)) with e3 | cals
    · simp [h1, h2, h3]
    rw [h3] at h
    rcases hm : pandasMean cals with _ | m
    · simp only [h1, h2, h3, mainFormula, hm, roundTo2_pyClamp_one]
      rcases hps : polyfitSlope ((dayIndices dates).zip weights) with e4 | slope <;>
        simp [hps]
    · have hle : m ≤ 0 := h m hm
      simp only [h1, h2, h3, mainFormula, hm, not_lt.mpr hle, if_false,
        roundTo2_pyClamp_one]
      rcases hps : polyfitSlope ((dayIndices dates).zip weights) with e4 | slope <;>
        simp [hps, not_lt.mpr hle, roundTo2_pyClamp_one]

/-- Witness for C8: five weigh-ins and a single zero-calorie food entry
of the same user give factor exactly 1.0. -/
theorem c8_division_guard_witness :
    (run_calibration_engine (CellVal.str "Mom")
      [⟨some 0, CellVal.str "Mom", some 80⟩, ⟨some 1, CellVal.str "Mom", some 80⟩,
       ⟨some 2, CellVal.str "Mom", some 80⟩, ⟨some 3, CellVal.str "Mom", some 80⟩,
       ⟨some 4, CellVal.str "Mom", some 80⟩]
      [⟨CellVal.str "Mom", 0, some 0⟩] none).1 = 1 :=
  c8_division_guard _ _ _ _ (fun m hm => by
    have h0 : foodMean (CellVal.str "Mom") [⟨CellVal.str "Mom", 0, some 0⟩]
        = some 0 := by
      simp only [foodMean, List.filter, pyStr, parseAll, pandasMean, List.map,
        beq_self_eq_true, if_true, List.sum_cons, List.sum_nil, List.length_cons,
        List.length_nil]
      norm_num
    rw [h0] at hm
    have hm0 : (0 : ℚ) = m := Option.some.inj hm
    exact le_of_eq hm0.symm)

/-- Counterexample to C5 as stated: starting from no data at all and
adding only another user's rows changes the returned (factor, message)
pair — the diagnostic message differs because the raw-data emptiness
check runs before the per-user filter. -/
theorem c5_counterexample :
    run_calibration_engine (CellVal.str "Mom") [] [] none
      ≠ run_calibration_engine (CellVal.str "Mom")
          [⟨some 0, CellVal.str "Dad", some 80⟩]
          [⟨CellVal.str "Dad", 500, some 500⟩] none := by
  decide

/-- Claim C5 amended: rows whose user identifier does not
string-normalize to the given id never influence the returned FACTOR
(adding, removing or changing them leaves it unchanged), and numeric
and string representations of the same identifier normalize equally;
the diagnostic MESSAGE, however, can change, because the emptiness
check precedes filtering (see the counterexample). -/
theorem c5_amended_factor_invariance (uid : CellVal)
    (wd wd' : List WeightRow) (fd fd' : List FoodRow)
    (sess : Option SessionProfile)
    (hw : wd.filter (fun r => pyStr r.userId == pyStr uid)
        = wd'.filter (fun r => pyStr r.userId == pyStr uid))
    (hf : fd.filter (fun r => pyStr r.userId == pyStr uid)
        = fd'.filter (fun r => pyStr r.userId == pyStr uid)) :
    (run_calibration_engine uid wd fd sess).1
        = (run_calibration_engine uid wd' fd' sess).1 ∧
      ∀ n : ℤ, pyStr (CellVal.int n) = pyStr (CellVal.str (toString n)) := by
  refine ⟨?_, fun n => rfl⟩
  rw [engine_fst_eq, engine_fst_eq, hw, hf]

/-- Witness for C5 amended: the factor is unchanged when another user's
rows are added to an empty store. -/
theorem c5_amended_factor_invariance_witness :
    (run_calibration_engine (CellVal.str "Mom") [] [] none).1
      = (run_calibration_engine (CellVal.str "Mom")
          [⟨some 0, CellVal.str "Dad", some 80⟩]
          [⟨CellVal.str "Dad", 500, some 500⟩] none).1 :=
  (c5_amended_factor_invariance (CellVal.str "Mom") [] _ [] _ none
    (by decide) (by decide)).1

/-- Counterexample to C4 as stated: a malformed date among the user's
weigh-ins makes the inner computation fail, and the engine then returns
(1, "Insufficient Data") — capitalized — not (1, "insufficient data"). -/
theorem c4_counterexample :
    innerEngine (CellVal.str "Mom")
        [⟨none, CellVal.str "Mom", some 80⟩, ⟨some 1, CellVal.str "Mom", some 80⟩,
         ⟨some 2, CellVal.str "Mom", some 80⟩, ⟨some 3, CellVal.str "Mom", some 80⟩,
         ⟨some 4, CellVal.str "Mom", some 80⟩]
        [⟨CellVal.str "Mom", 1000, some 1000⟩] (getTdee none) = Except.error ()
      ∧ run_calibration_engine (CellVal.str "Mom")
        [⟨none, CellVal.str "Mom", some 80⟩, ⟨some 1, CellVal.str "Mom", some 80⟩,
         ⟨some 2, CellVal.str "Mom", some 80⟩, ⟨some 3, CellVal.str "Mom", some 80⟩,
         ⟨some 4, CellVal.str "Mom", some 80⟩]
        [⟨CellVal.str "Mom", 1000, some 1000⟩] none ≠ (1, "insufficient data") := by
  constructor
  · rfl
  · decide

/-- Claim C4 amended: the engine is total and every internal
computational failure (malformed dates, non-numeric fields, ...) is
caught and converted to the neutral fallback, whose message is
"Insufficient Data" (capitalized), not "insufficient data". -/
theorem c4_amended_fallback (uid : CellVal) (wd : List WeightRow)
    (fd : List FoodRow) (sess : Option SessionProfile)
    (h : innerEngine uid wd fd (getTdee sess) = Except.error ()) :
    run_calibration_engine uid wd fd sess = (1, "Insufficient Data") := by
  unfold run_calibration_engine
  rw [h]

/-- Witness for C4 amended: the malformed-date input produces the
capitalized fallback. -/
theorem c4_amended_fallback_witness :
    run_calibration_engine (CellVal.str "Mom")
        [⟨none, CellVal.str "Mom", some 80⟩, ⟨some 1, CellVal.str "Mom", some 80⟩,
         ⟨some 2, CellVal.str "Mom", some 80⟩, ⟨some 3, CellVal.str "Mom", some 80⟩,
         ⟨some 4, CellVal.str "Mom", some 80⟩]
        [⟨CellVal.str "Mom", 1000, some 1000⟩] none = (1, "Insufficient Data") :=
  c4_amended_fallback _ _ _ _ (by rfl)

theorem dayIndices_sq_sum (dates : List ℤ) (weights : List ℚ)
    (hlen : dates.length ≤ weights.length) :
    (((dayIndices dates).zip weights).map (fun p => p.1 * p.1)).sum
      = ((dayIndices dates).map (fun x => x * x)).sum := by
  have hfst : ((dayIndices dates).zip weights).map Prod.fst = dayIndices dates :=
    List.map_fst_zip _ _ (by simpa [dayIndices] using hlen)
  conv_rhs => rw [← hfst, List.map_map]
  rfl

theorem polyfitSlope_ok_of_two_dates (dates : List ℤ) (weights : List ℚ)
    (hlen : dates.length ≤ weights.length)
    (htwo : ∃ d ∈ dates, d ≠ listMin dates) :
    polyfitSlope ((dayIndices dates).zip weights)
      = Except.ok (olsSlope ((dayIndices dates).zip weights)) := by
  have hpos : 0 < ((dayIndices dates).map (fun x => x * x)).sum := by
    obtain ⟨d, hdmem, hdne⟩ := htwo
    have hx0 : ((d - listMin dates : ℤ) : ℚ) ≠ 0 := by
      intro h
      apply hdne
      have h2 : (d - listMin dates : ℤ) = 0 := by exact_mod_cast h
      omega
    have hle : ((d - listMin dates : ℤ) : ℚ) * ((d - listMin dates : ℤ) : ℚ)
        ≤ ((dayIndices dates).map (fun x => x * x)).sum := by
      apply List.single_le_sum
      · intro x hxmem
        obtain ⟨y, hy, hyx⟩ := List.mem_map.mp hxmem
        rw [← hyx]
        exact mul_self_nonneg y
      · exact List.mem_map_of_mem _ (List.mem_map_of_mem _ hdmem)
    have hlt : 0 < ((d - listMin dates : ℤ) : ℚ) * ((d - listMin dates : ℤ) : ℚ) :=
      mul_self_pos.mpr hx0
    linarith
  have hne : (((dayIndices dates).zip weights).map (fun p => p.1 * p.1)).sum
      ≠ 0 := by
    rw [dayIndices_sq_sum dates weights hlen]
    exact ne_of_gt hpos
  unfold polyfitSlope
  rw [if_neg hne]

theorem polyfitSlope_error_of_same_date (dates : List ℤ) (weights : List ℚ)
    (hsame : ∀ d ∈ dates, d = listMin dates) :
    polyfitSlope ((dayIndices dates).zip weights) = Except.error () := by
  have hzero : (((dayIndices dates).zip weights).map
      (fun p => p.1 * p.1)).sum = 0 := by
    apply List.sum_eq_zero
    intro x hx
    obtain ⟨p, hp, hpx⟩ := List.mem_map.mp hx
    obtain ⟨a, b⟩ := p
    have hp1 : a ∈ dayIndices dates := (List.of_mem_zip hp).1
    obtain ⟨d, hdmem, hpd⟩ := List.mem_map.mp hp1
    rw [← hpx]
    have hd0 : d = listMin dates := hsame d hdmem
    simp only [← hpd, hd0]
    simp
  unfold polyfitSlope
  rw [if_pos hzero]

/-- Counterexample to C3 as stated: with the collections empty the
engine returns (1, "Not enough data"), not (1, "insufficient data"). -/
theorem c3_counterexample :
    run_calibration_engine (CellVal.str "Mom") [] [] none
      ≠ (1, "insufficient data") := by
  decide

/-- Claim C3 amended: the sparse-data early exits exist but differ from
the claim: the emptiness check runs on the RAW unfiltered collections
and returns (1, "Not enough data"); fewer than 5 weight samples after
filtering returns (1, "Need 5+ weigh-ins"); a user with ≥ 5 weight
samples of their own but no food entries of their own does not
early-exit at all — the regression still runs, and when the weigh-ins
span at least two distinct dates the engine returns factor 1.0 with a
slope diagnostic, while when they all share one date the fit fails and
the engine returns (1, "Insufficient Data"). -/
theorem c3_amended_early_exits (uid : CellVal) (wd : List WeightRow)
    (fd : List FoodRow) (sess : Option SessionProfile) :
    (wd = [] ∨ fd = [] →
        run_calibration_engine uid wd fd sess = (1, "Not enough data"))
    ∧ (wd ≠ [] → fd ≠ [] →
        (wd.filter (fun r => pyStr r.userId == pyStr uid)).length < 5 →
        run_calibration_engine uid wd fd sess = (1, "Need 5+ weigh-ins"))
    ∧ (∀ (dates : List ℤ) (weights : List ℚ), wd ≠ [] → fd ≠ [] →
        fd.filter (fun r => pyStr r.userId == pyStr uid) = [] →
        ¬ (wd.filter (fun r => pyStr r.userId == pyStr uid)).length < 5 →
        parseAll ((wd.filter (fun r => pyStr r.userId == pyStr uid)).map
            (fun r => r.date)) = Except.ok dates →
        parseAll ((wd.filter (fun r => pyStr r.userId == pyStr uid)).map
            (fun r => r.weight)) = Except.ok weights →
        (∃ d ∈ dates, d ≠ listMin dates) →
        run_calibration_engine uid wd fd sess
          = (1, "Slope: " ++ fmt3 (olsSlope ((dayIndices dates).zip weights))
              ++ " kg/day"))
    ∧ (∀ (dates : List ℤ) (weights : List ℚ), wd ≠ [] → fd ≠ [] →
        fd.filter (fun r => pyStr r.userId == pyStr uid) = [] →
        ¬ (wd.filter (fun r => pyStr r.userId == pyStr uid)).length < 5 →
        parseAll ((wd.filter (fun r => pyStr r.userId == pyStr uid)).map
            (fun r => r.date)) = Except.ok dates →
        parseAll ((wd.filter (fun r => pyStr r.userId == pyStr uid)).map
            (fun r => r.weight)) = Except.ok weights →
        (∀ d ∈ dates, d = listMin dates) →
        run_calibration_engine uid wd fd sess = (1, "Insufficient Data")) := by
  refine ⟨?_, ?_, ?_, ?_⟩
  · intro h
    unfold run_calibration_engine innerEngine
    rw [if_pos h]
  · intro h1 h2 h3
    unfold run_calibration_engine innerEngine
    rw [if_neg (by simp [h1, h2])]
    unfold regressionPart
    rw [if_pos h3]
  · intro dates weights h1 h2 hfnil hlen hd hw2 htwo
    have hdlen : dates.length
        = (wd.filter (fun r => pyStr r.userId == pyStr uid)).length := by
      have h := parseAll_ok_length _ _ hd
      simpa using h
    have hwlen : weights.length
        = (wd.filter (fun r => pyStr r.userId == pyStr uid)).length := by
      have h := parseAll_ok_length _ _ hw2
      simpa using h
    have hps := polyfitSlope_ok_of_two_dates dates weights (by omega) htwo
    unfold run_calibration_engine innerEngine
    rw [if_neg (by simp [h1, h2])]
    unfold regressionPart
    rw [if_neg hlen, hfnil, hd, hw2]
    simp [mainFormula, parseAll, hps, pandasMean, roundTo2_pyClamp_one]
  · intro dates weights h1 h2 hfnil hlen hd hw2 hsame
    have hps := polyfitSlope_error_of_same_date dates weights hsame
    unfold run_calibration_engine innerEngine
    rw [if_neg (by simp [h1, h2])]
    unfold regressionPart
    rw [if_neg hlen, hfnil, hd, hw2]
    simp [mainFormula, parseAll, hps]

/-- Witness for C3 amended: another user's lone rows leave fewer than 5
filtered weigh-ins, and the engine answers (1, "Need 5+ weigh-ins"). -/
theorem c3_amended_early_exits_witness :
    run_calibration_engine (CellVal.str "Mom")
        [⟨some 0, CellVal.str "Dad", some 80⟩]
        [⟨CellVal.str "Dad", 500, some 500⟩] none
      = (1, "Need 5+ weigh-ins") :=
  (c3_amended_early_exits (CellVal.str "Mom") _ _ none).2.1
    (by decide) (by decide) (by decide)

/-- Counterexample to C1 as stated: five weigh-ins sharing a single
date satisfy every precondition of the claim (≥ 5 filtered weight
samples, ≥ 1 filtered food entry), yet the fit fails — polyfit's
scaled x column is zero-norm — and the engine returns
(1, "Insufficient Data") instead of the claimed spec pipeline value. -/
theorem c1_counterexample :
    run_calibration_engine (CellVal.str "Mom")
        [⟨some 3, CellVal.str "Mom", some 80⟩,
         ⟨some 3, CellVal.str "Mom", some (799/10)⟩,
         ⟨some 3, CellVal.str "Mom", some (798/10)⟩,
         ⟨some 3, CellVal.str "Mom", some (797/10)⟩,
         ⟨some 3, CellVal.str "Mom", some (796/10)⟩]
        [⟨CellVal.str "Mom", 1000, some 1000⟩] (some ⟨some 2000⟩)
      = (1, "Insufficient Data")
    ∧ run_calibration_engine (CellVal.str "Mom")
        [⟨some 3, CellVal.str "Mom", some 80⟩,
         ⟨some 3, CellVal.str "Mom", some (799/10)⟩,
         ⟨some 3, CellVal.str "Mom", some (798/10)⟩,
         ⟨some 3, CellVal.str "Mom", some (797/10)⟩,
         ⟨some 3, CellVal.str "Mom", some (796/10)⟩]
        [⟨CellVal.str "Mom", 1000, some 1000⟩] (some ⟨some 2000⟩)
      ≠ specCalibrationResult 2000 [3, 3, 3, 3, 3]
          [80, 799/10, 798/10, 797/10, 796/10] [1000] := by
  have h1 : run_calibration_engine (CellVal.str "Mom")
      [⟨some 3, CellVal.str "Mom", some 80⟩,
       ⟨some 3, CellVal.str "Mom", some (799/10)⟩,
       ⟨some 3, CellVal.str "Mom", some (798/10)⟩,
       ⟨some 3, CellVal.str "Mom", some (797/10)⟩,
       ⟨some 3, CellVal.str "Mom", some (796/10)⟩]
      [⟨CellVal.str "Mom", 1000, some 1000⟩] (some ⟨some 2000⟩)
      = (1, "Insufficient Data") := by
    unfold run_calibration_engine innerEngine regressionPart mainFormula
      polyfitSlope
    simp only [List.filter, pyStr, parseAll, listMin, dayIndices,
      List.map, List.zip, List.zipWith, List.foldl]
    norm_num
    rfl
  have h2 : specCalibrationResult 2000 [3, 3, 3, 3, 3]
      [80, 799/10, 798/10, 797/10, 796/10] [1000]
      = (3/2, "Slope: 0.000 kg/day") := by
    unfold specCalibrationResult
    simp only [listMin, olsSlope, pandasMean, fmt3, roundTo2, pyClamp,
      List.map, List.zip, List.zipWith, List.foldl, List.sum_cons,
      List.sum_nil, List.length_cons, List.length_nil]
    norm_num [round_eq]
    rfl
  refine ⟨h1, ?_⟩
  intro hcontra
  rw [h1, h2] at hcontra
  exact absurd (congrArg Prod.fst hcontra) (by norm_num)

/-- Claim C1 amended: on the main path (≥ 5 filtered weight samples,
≥ 1 filtered food entry, all cells parse, positive mean of the stored
adjusted calories) AND provided the filtered weigh-ins span at least
two distinct dates (otherwise the degree-1 fit fails and the engine
falls back to (1, "Insufficient Data"), see the counterexample), the
engine returns exactly the spec's pipeline: OLS slope of weight
against day index, mean of Final_Cals, expected_intake = tdee + slope
× 7700, factor = expected/avg clamped to [0.8, 1.5] and rounded to 2
decimals, with the slope to 3 decimals in the diagnostic. -/
theorem c1_main_path (uid : CellVal) (wd : List WeightRow)
    (fd : List FoodRow) (sess : Option SessionProfile)
    (dates : List ℤ) (weights cals : List ℚ)
    (hlen : 5 ≤ (wd.filter (fun r => pyStr r.userId == pyStr uid)).length)
    (hflen : 1 ≤ (fd.filter (fun r => pyStr r.userId == pyStr uid)).length)
    (hd : parseAll ((wd.filter (fun r => pyStr r.userId == pyStr uid)).map
        (fun r => r.date)) = Except.ok dates)
    (hwp : parseAll ((wd.filter (fun r => pyStr r.userId == pyStr uid)).map
        (fun r => r.weight)) = Except.ok weights)
    (hc : parseAll ((fd.filter (fun r => pyStr r.userId == pyStr uid)).map
        (fun r => r.finalCals)) = Except.ok cals)
    (havg : 0 < cals.sum / (cals.length : ℚ))
    (htwo : ∃ d ∈ dates, d ≠ listMin dates) :
    run_calibration_engine uid wd fd sess
      = specCalibrationResult (getTdee sess) dates weights cals := by
  have hwne : wd ≠ [] := by
    intro hnil
    rw [hnil] at hlen
    simp at hlen
  have hfne : fd ≠ [] := by
    intro hnil
    rw [hnil] at hflen
    simp at hflen
  have hclen : cals.length
      = (fd.filter (fun r => pyStr r.userId == pyStr uid)).length := by
    have h := parseAll_ok_length _ _ hc
    simpa using h
  have hcne : cals ≠ [] := by
    intro hnil
    rw [hnil] at hclen
    simp at hclen
    omega
  have hdlen : dates.length
      = (wd.filter (fun r => pyStr r.userId == pyStr uid)).length := by
    have h := parseAll_ok_length _ _ hd
    simpa using h
  have hwlen : weights.length
      = (wd.filter (fun r => pyStr r.userId == pyStr uid)).length := by
    have h := parseAll_ok_length _ _ hwp
    simpa using h
  have hps := polyfitSlope_ok_of_two_dates dates weights (by omega) htwo
  unfold run_calibration_engine innerEngine
  rw [if_neg (by simp [hwne, hfne])]
  unfold regressionPart
  rw [if_neg (by omega), hd, hwp, hc]
  simp only [mainFormula, hps, specCalibrationResult, pandasMean,
    if_neg hcne, if_pos havg]
  rfl

/-- Witness for C1: a perfect −0.1 kg/day line over five days with a
single 1000-kcal food entry and TDEE 2000 gives 1230/1000 = 1.23. -/
theorem c1_main_path_witness :
    run_calibration_engine (CellVal.str "Mom")
        [⟨some 0, CellVal.str "Mom", some 80⟩,
         ⟨some 1, CellVal.str "Mom", some (799/10)⟩,
         ⟨some 2, CellVal.str "Mom", some (798/10)⟩,
         ⟨some 3, CellVal.str "Mom", some (797/10)⟩,
         ⟨some 4, CellVal.str "Mom", some (796/10)⟩]
        [⟨CellVal.str "Mom", 1000, some 1000⟩] (some ⟨some 2000⟩)
      = specCalibrationResult 2000 [0, 1, 2, 3, 4]
          [80, 799/10, 798/10, 797/10, 796/10] [1000]
    ∧ specCalibrationResult 2000 [0, 1, 2, 3, 4]
          [80, 799/10, 798/10, 797/10, 796/10] [1000]
        = (123/100, "Slope: -0.100 kg/day") := by
  constructor
  · exact c1_main_path _ _ _ _ _ _ _ (by decide) (by decide) (by rfl) (by rfl)
      (by rfl) (by norm_num) ⟨1, by decide, by decide⟩
  · unfold specCalibrationResult
    simp only [listMin, olsSlope, pandasMean, fmt3, roundTo2, pyClamp,
      List.map, List.zip, List.zipWith, List.foldl, List.sum_cons, List.sum_nil,
      List.length_cons, List.length_nil]
    norm_num [round_eq]
    rfl
